import Mathlib

/-!
Shallow embedding of the quit-smoking backend (src/main.py, src/schemas.py).

Calendar dates are modelled as integers (a day number, e.g. days since some
epoch); `(today - quit_date).days` becomes integer subtraction.  Python ints
are `Int`, Python floats are modelled as exact rationals `Rat`, and Python's
`round(x, 2)` (round half to even) is `round2` below.  The Mongo check-in
collection handed to `_compute_stats` is a list of check-in documents; the
`days_logged` dict built from it is an association list with last-write-wins
upsert semantics, mirroring dict assignment in the loop.
-/

namespace QuitSmoking

/-- A `userprofile` document as `_compute_stats` reads it, after the
`get`-with-default coercions: `daily_cig_before` and `price_per_pack` default
to 0 when absent, `cigs_per_pack` to 20, `currency` to "$".  An absent or null
`quit_date` is `none`. -/
structure Userprofile where
  quit_date : Option Int
  daily_cig_before : Int
  price_per_pack : Rat
  cigs_per_pack : Int
  currency : String
deriving DecidableEq

/-- A `checkin` document: calendar date (as a day number) and count. -/
structure Checkin where
  date : Int
  cigarettes_count : Int
deriving DecidableEq

/-- The `savings` sub-object of the stats snapshot. -/
structure Savings where
  amount : Rat
  currency : String
deriving DecidableEq

/-- The dict returned by `_compute_stats`. -/
structure StatsSnapshot where
  days_since_quit : Int
  current_streak : Int
  smoke_free_days : Int
  savings : Savings
  baseline_daily : Int
  expected_daily_spend : Rat
  milestones : List Int
  progress : Rat
deriving DecidableEq

/-- Round a rational to the nearest integer, ties to even — the semantics of
Python 3 `round` on an exactly-representable value. -/
def roundHalfEven (q : Rat) : Int :=
  if q - ((⌊q⌋ : Int) : Rat) < 1/2 then ⌊q⌋
  else if 1/2 < q - ((⌊q⌋ : Int) : Rat) then ⌊q⌋ + 1
  else if ⌊q⌋ % 2 = 0 then ⌊q⌋ else ⌊q⌋ + 1

/-- Python `round(x, 2)`. -/
def round2 (q : Rat) : Rat := ((roundHalfEven (q * 100) : Int) : Rat) / 100

/-- Replace the value stored at key `d`, or append the pair — dict assignment
`days_logged[d] = v` on an association list. -/
def upsertDay (m : List (Int × Int)) (d v : Int) : List (Int × Int) :=
  if (m.lookup d).isSome then m.map (fun e => if e.1 = d then (d, v) else e)
  else m ++ [(d, v)]

/-- The `days_logged` dict built by the loop in `_compute_stats`: one entry
per date, last write wins. -/
def daysLoggedOf (checkins : List Checkin) : List (Int × Int) :=
  checkins.foldl (fun m c => upsertDay m c.date c.cigarettes_count) []

/-- `checkins = list(...find(...)) if quit_date else []`. -/
def fetched_checkins (p : Userprofile) (cs : List Checkin) : List Checkin :=
  if p.quit_date.isSome then cs else []

/-- The days-logged dict for a profile: empty when there is no quit date. -/
def days_logged (p : Userprofile) (cs : List Checkin) : List (Int × Int) :=
  daysLoggedOf (fetched_checkins p cs)

/-- `days_logged.get(d, None)`. -/
def lookup_day (p : Userprofile) (cs : List Checkin) (d : Int) : Option Int :=
  (days_logged p cs).lookup d

/-- `days_since_quit = (today - quit_date).days if quit_date else 0` — the raw,
unclamped local variable. -/
def raw_days (today : Int) (p : Userprofile) : Int :=
  match p.quit_date with
  | some q => today - q
  | none => 0

/-- The `smoke_free_days` loop: for `i` in `range(days_since_quit + 1)`, the
day is `quit_date + i` (or `today` when no quit date) and counts iff a
check-in exists with count exactly 0. -/
def smoke_free_days_fn (today : Int) (p : Userprofile) (cs : List Checkin) : Nat :=
  (List.range (raw_days today p + 1).toNat).countP
    (fun i =>
      let d : Int := match p.quit_date with
        | some q => q + (i : Int)
        | none => today
      lookup_day p cs d = some 0)

/-- The backward `while d >= quit_date` walk of `_compute_stats`: fuel is the
number of days from `quit_date` to `today` inclusive; each step counts iff the
day has a check-in with count exactly 0, else the walk stops. -/
def streakGo (lk : Int → Option Int) : Nat → Int → Nat
  | 0, _ => 0
  | n + 1, d => if lk d = some 0 then streakGo lk n (d - 1) + 1 else 0

/-- `current_streak`: 0 with no quit date; otherwise walk backward from today
down to the quit date. -/
def current_streak_fn (today : Int) (p : Userprofile) (cs : List Checkin) : Nat :=
  match p.quit_date with
  | none => 0
  | some q => streakGo (lookup_day p cs) (today - q + 1).toNat today

/-- `cigs_per_pack = int(user_doc.get("cigs_per_pack", 20) or 20)`: a stored 0
is falsy and falls back to the default 20. -/
def effCigsPerPack (p : Userprofile) : Int :=
  if p.cigs_per_pack = 0 then 20 else p.cigs_per_pack

/-- `cost_per_cig = price_per_pack / cigs_per_pack if cigs_per_pack else 0`. -/
def cost_per_cig (p : Userprofile) : Rat :=
  if effCigsPerPack p ≠ 0 then p.price_per_pack / ((effCigsPerPack p : Int) : Rat)
  else 0

/-- `expected_spend = baseline_daily * cost_per_cig`. -/
def expected_spend (p : Userprofile) : Rat :=
  (p.daily_cig_before : Rat) * cost_per_cig p

/-- `total_cigs_logged = sum(days_logged.values())`. -/
def total_cigs_logged (p : Userprofile) (cs : List Checkin) : Int :=
  ((days_logged p cs).map (fun e => e.2)).sum

/-- `total_days = max(days_since_quit + 1, 1)` (raw, unclamped days). -/
def total_days (today : Int) (p : Userprofile) : Int :=
  max (raw_days today p + 1) 1

/-- `cigs_avoided = max(baseline_daily * total_days - total_cigs_logged, 0)`. -/
def cigs_avoided (today : Int) (p : Userprofile) (cs : List Checkin) : Int :=
  max (p.daily_cig_before * total_days today p - total_cigs_logged p cs) 0

/-- The fixed milestone list. -/
def milestonesList : List Int := [1, 3, 7, 14, 30, 60, 90]

/-- `max(milestones)` (the list is a nonempty constant, so a fold computes
its maximum). -/
def milestonesMax : Int := milestonesList.foldl max 0

/-- `progress = min(days_since_quit / max(milestones) * 100, 100) if milestones
else 0` — note the source uses the raw, unclamped `days_since_quit` here. -/
def progress_fn (today : Int) (p : Userprofile) : Rat :=
  if milestonesList ≠ [] then
    min (((raw_days today p : Int) : Rat) / ((milestonesMax : Int) : Rat) * 100) 100
  else 0

/-- `_compute_stats(user_doc)` with `today` an explicit input: the returned
snapshot dict. -/
def computeStats (today : Int) (p : Userprofile) (cs : List Checkin) : StatsSnapshot :=
  { days_since_quit := max (raw_days today p) 0
    current_streak := (current_streak_fn today p cs : Int)
    smoke_free_days := (smoke_free_days_fn today p cs : Int)
    savings := { amount := round2 (((cigs_avoided today p cs : Int) : Rat) * cost_per_cig p)
                 currency := p.currency }
    baseline_daily := p.daily_cig_before
    expected_daily_spend := round2 (expected_spend p)
    milestones := milestonesList
    progress := progress_fn today p }

/-! ### Badge awarding (`_award_badge`, `_maybe_award_badges`) -/

/-- The three metrics `_maybe_award_badges` reads from the stats dict:
`days_since_quit`, `current_streak`, and `savings.amount`. -/
structure AwardStats where
  days : Int
  streak : Int
  savings : Rat
deriving DecidableEq

/-- The stats `_maybe_award_badges` extracts from a `_compute_stats` snapshot. -/
def statsOfSnapshot (s : StatsSnapshot) : AwardStats :=
  { days := s.days_since_quit, streak := s.current_streak, savings := s.savings.amount }

/-- The day-count ladder of `_maybe_award_badges`. -/
def days_milestones : List Nat := [1, 3, 7, 14, 30, 60, 90]

/-- The streak ladder. -/
def streak_milestones : List Nat := [3, 7, 14, 30, 60]

/-- The savings ladder. -/
def savings_milestones : List Nat := [10, 50, 100, 250, 500]

/-- Badge key `days_{m}`. -/
def daysKey (m : Nat) : String := "days_" ++ toString m

/-- Badge key `streak_{m}`. -/
def streakKey (m : Nat) : String := "streak_" ++ toString m

/-- Badge key `savings_{m}`. -/
def savingsKey (m : Nat) : String := "savings_" ++ toString m

/-- The candidate badges in the order the three `for` loops of
`_maybe_award_badges` visit them, paired with whether their threshold test
(`days >= m`, `streak >= m`, `savings >= m`) passes. -/
def badgeCandidates (st : AwardStats) : List (String × Bool) :=
  days_milestones.map (fun m => (daysKey m, decide ((m : Int) ≤ st.days)))
    ++ streak_milestones.map (fun m => (streakKey m, decide ((m : Int) ≤ st.streak)))
    ++ savings_milestones.map (fun m => (savingsKey m, decide ((m : Rat) ≤ st.savings)))

/-- One pass of `_award_badge` per candidate: award iff the threshold passed
and the key is not in the badge store; an award inserts the key into the
store, so later candidates in the same run see it.  Returns the keys of the
newly created badges in creation order. -/
def awardFold (cands : List (String × Bool)) (store out : List String) : List String :=
  match cands with
  | [] => out
  | c :: rest =>
    if c.2 = true ∧ c.1 ∉ store then awardFold rest (c.1 :: store) (out ++ [c.1])
    else awardFold rest store out

/-- `_maybe_award_badges` as a pure function: given the stats metrics and the
set of badge keys already stored for the user, the keys of the badges the
call creates. -/
def newBadgeKeys (st : AwardStats) (existing : List String) : List String :=
  awardFold (badgeCandidates st) existing []

/-! ### `update_user` (PUT /api/users/{user_id}) -/

/-- A BSON-ish document value. -/
inductive DocVal where
  | str (v : String)
  | int (v : Int)
  | rat (v : Rat)
  | dateVal (v : Int)
  | null
deriving DecidableEq

/-- A stored document: an association list of fields. -/
abbrev Doc : Type := List (String × DocVal)

/-- Set one field of a document (`$set` on one key): replace in place or
append. -/
def setKey (d : Doc) (k : String) (v : DocVal) : Doc :=
  if (List.lookup k d).isSome then d.map (fun e => if e.1 = k then (k, v) else e)
  else d ++ [(k, v)]

/-- Apply a `$set` update document field by field. -/
def setFields (d : Doc) (upd : List (String × DocVal)) : Doc :=
  upd.foldl (fun acc kv => setKey acc kv.1 kv.2) d

/-- The Mongo filter `{"uid": user_id}`. -/
def matchesUid (uid : String) (d : Doc) : Bool :=
  List.lookup "uid" d == some (DocVal.str uid)

/-- `update_one`: modify the first matching document, leave the rest. -/
def applyFirst (p : Doc → Bool) (f : Doc → Doc) : List Doc → List Doc
  | [] => []
  | d :: rest => if p d then f d :: rest else d :: applyFirst p f rest

/-- Response of the `update_user` endpoint: the JSON body, or an HTTP error. -/
inductive UpdateResp where
  | updated (b : Bool)
  | httpError (code : Int)
deriving DecidableEq

/-- `update_user(user_id, payload)`: `upd` is `payload.model_dump(exclude_unset=True)`
(the list of fields the request body actually set); `now` models the
`$currentDate` value for `updated_at`; the state is the `userprofile`
collection.  Empty update → `{"updated": False}` before touching the store;
otherwise `update_one` with the uid filter, 404 when nothing matched. -/
def update_user (now : DocVal) (store : List Doc) (uid : String)
    (upd : List (String × DocVal)) : List Doc × UpdateResp :=
  if upd = [] then (store, UpdateResp.updated false)
  else if store.any (matchesUid uid) then
    (applyFirst (matchesUid uid) (fun d => setKey (setFields d upd) "updated_at" now) store,
      UpdateResp.updated true)
  else (store, UpdateResp.httpError 404)

/-! ### Concrete inputs used by the claims -/

/-- A new-user profile with no quit date (baseline 20 cigarettes, pack of 20
at 10 currency units). -/
def profileNoQuit : Userprofile := ⟨none, 20, 10, 20, "$"⟩

/-- A profile whose quit date is one day after the evaluation day 0. -/
def profileFutureQuit : Userprofile := ⟨some 1, 0, 0, 20, "$"⟩

/-- A profile whose stored `cigs_per_pack` is 0. -/
def profileZeroPack : Userprofile := ⟨some 0, 20, 10, 0, "$"⟩

/-- The spec's concrete scenario profile: quit date = day 0 (2024-01-01),
20 cigarettes/day, pack of 20 at 10.0. -/
def profileScenario : Userprofile := ⟨some 0, 20, 10, 20, "$"⟩

/-- The scenario check-ins: zero on 2024-01-01 .. 2024-01-03 (days 0..2). -/
def checkinsScenario : List Checkin := [⟨0, 0⟩, ⟨1, 0⟩, ⟨2, 0⟩]

/-- Profile for the streak scenario: quit date = day 0. -/
def profileStreak : Userprofile := ⟨some 0, 0, 0, 20, "$"⟩

/-- Check-ins `{day0:0, day1:0, day2:5, day3:0}`. -/
def checkinsStreak : List Checkin := [⟨0, 0⟩, ⟨1, 0⟩, ⟨2, 5⟩, ⟨3, 0⟩]

/-- Profile for the over-logging scenario: baseline 1 cigarette/day. -/
def profileOverLogged : Userprofile := ⟨some 0, 1, 10, 20, "$"⟩

/-- Logged counts far above the baseline expectation. -/
def checkinsOverLogged : List Checkin := [⟨0, 100⟩]

/-! ### Helper lemmas -/

theorem roundHalfEven_intCast (m : Int) : roundHalfEven ((m : Rat)) = m := by
  unfold roundHalfEven
  norm_num

theorem round2_intCast (n : Int) : round2 ((n : Rat)) = (n : Rat) := by
  have h : ((n : Rat)) * 100 = ((n * 100 : Int) : Rat) := by push_cast; ring
  rw [round2, h, roundHalfEven_intCast]
  push_cast
  rw [mul_div_assoc]
  norm_num

theorem roundHalfEven_nonneg (q : Rat) (h : 0 ≤ q) : 0 ≤ roundHalfEven q := by
  have hf : 0 ≤ ⌊q⌋ := Int.floor_nonneg.mpr h
  unfold roundHalfEven
  split
  · exact hf
  · split
    · omega
    · split
      · exact hf
      · omega

theorem round2_nonneg (q : Rat) (h : 0 ≤ q) : 0 ≤ round2 q := by
  have h100 : 0 ≤ q * 100 := by positivity
  have hr : 0 ≤ roundHalfEven (q * 100) := roundHalfEven_nonneg _ h100
  have : (0 : Rat) ≤ ((roundHalfEven (q * 100) : Int) : Rat) := by exact_mod_cast hr
  unfold round2
  positivity

theorem effCigsPerPack_nonneg (p : Userprofile) (hcp : 0 ≤ p.cigs_per_pack) :
    0 ≤ effCigsPerPack p := by
  unfold effCigsPerPack
  split
  · norm_num
  · exact hcp

theorem cost_per_cig_nonneg (p : Userprofile) (hpr : 0 ≤ p.price_per_pack)
    (hcp : 0 ≤ p.cigs_per_pack) : 0 ≤ cost_per_cig p := by
  unfold cost_per_cig
  split
  · exact div_nonneg hpr (by exact_mod_cast effCigsPerPack_nonneg p hcp)
  · exact le_refl 0

theorem cigs_avoided_nonneg (today : Int) (p : Userprofile) (cs : List Checkin) :
    0 ≤ cigs_avoided today p cs :=
  le_max_right _ 0

/-- `awardFold` over candidates with pairwise-distinct keys, on a store that
is `added ++ ex` where no candidate key is in `added`, appends to `out`
exactly the passing candidates not already in `ex`. -/
theorem awardFold_spec (cands : List (String × Bool)) :
    ∀ (ex added out : List String),
      (∀ c ∈ cands, c.1 ∉ added) → (cands.map Prod.fst).Nodup →
      awardFold cands (added ++ ex) out
        = out ++ (cands.filter (fun c => c.2 && decide (c.1 ∉ ex))).map Prod.fst := by
  induction cands with
  | nil => intro ex added out _ _; simp [awardFold]
  | cons c rest ih =>
    intro ex added out hadd hnd
    have hc_add : c.1 ∉ added := hadd c (by simp)
    rw [List.map_cons] at hnd
    have hc_rest : c.1 ∉ rest.map Prod.fst := (List.nodup_cons.mp hnd).1
    have hnd' : (rest.map Prod.fst).Nodup := (List.nodup_cons.mp hnd).2
    by_cases hcond : c.2 = true ∧ c.1 ∉ ex
    · have hmem : c.1 ∉ added ++ ex := by
        simp only [List.mem_append]
        push_neg
        exact ⟨hc_add, hcond.2⟩
      have hif : (c.2 = true ∧ c.1 ∉ added ++ ex) := ⟨hcond.1, hmem⟩
      rw [awardFold, if_pos hif]
      have hstep : c.1 :: (added ++ ex) = (c.1 :: added) ++ ex := rfl
      rw [hstep, ih ex (c.1 :: added) (out ++ [c.1])
        (by
          intro c' hc'
          simp only [List.mem_cons]
          push_neg
          constructor
          · intro heq
            exact hc_rest (heq ▸ List.mem_map_of_mem Prod.fst hc')
          · exact hadd c' (List.mem_cons_of_mem _ hc'))
        hnd']
      have hfc : (c.2 && decide (c.1 ∉ ex)) = true := by
        simp [hcond.1, hcond.2]
      rw [List.filter_cons, if_pos hfc, List.map_cons, List.append_assoc,
        List.singleton_append]
    · have hif : ¬ (c.2 = true ∧ c.1 ∉ added ++ ex) := by
        intro hcontra
        apply hcond
        refine ⟨hcontra.1, ?_⟩
        intro hex
        exact hcontra.2 (List.mem_append.mpr (Or.inr hex))
      rw [awardFold, if_neg hif, ih ex added out (fun c' hc' => hadd c' (List.mem_cons_of_mem _ hc')) hnd']
      have hfc : (c.2 && decide (c.1 ∉ ex)) = false := by
        rcases Decidable.not_and_iff_or_not.mp hcond with h1 | h2
        · simp [Bool.eq_false_iff.mpr h1]
        · simp only [Decidable.not_not] at h2
          simp [h2]
      rw [List.filter_cons, if_neg (by rw [hfc]; exact Bool.false_ne_true)]

theorem badgeCandidates_keys (st : AwardStats) :
    (badgeCandidates st).map Prod.fst
      = days_milestones.map daysKey ++ streak_milestones.map streakKey
        ++ savings_milestones.map savingsKey := by
  simp [badgeCandidates, List.map_map, Function.comp_def]

theorem badgeCandidates_keys_nodup (st : AwardStats) :
    ((badgeCandidates st).map Prod.fst).Nodup := by
  rw [badgeCandidates_keys]
  decide

theorem newBadgeKeys_eq_filter (st : AwardStats) (ex : List String) :
    newBadgeKeys st ex
      = ((badgeCandidates st).filter (fun c => c.2 && decide (c.1 ∉ ex))).map Prod.fst := by
  have h := awardFold_spec (badgeCandidates st) ex [] []
    (fun c _ => List.not_mem_nil c.1) (badgeCandidates_keys_nodup st)
  simpa [newBadgeKeys] using h

/-- Membership characterization of the keys a single awarding run creates. -/
theorem mem_newBadgeKeys (st : AwardStats) (ex : List String) (k : String) :
    k ∈ newBadgeKeys st ex ↔
      k ∉ ex ∧
        ((∃ m ∈ days_milestones, k = daysKey m ∧ (m : Int) ≤ st.days)
          ∨ (∃ m ∈ streak_milestones, k = streakKey m ∧ (m : Int) ≤ st.streak)
          ∨ (∃ m ∈ savings_milestones, k = savingsKey m ∧ (m : Rat) ≤ st.savings)) := by
  rw [newBadgeKeys_eq_filter]
  constructor
  · intro hk
    rcases List.mem_map.mp hk with ⟨c, hcf, rfl⟩
    rcases List.mem_filter.mp hcf with ⟨hcmem, hcond⟩
    rw [Bool.and_eq_true, decide_eq_true_eq] at hcond
    rcases List.mem_append.mp hcmem with hAB | hC
    · rcases List.mem_append.mp hAB with hA | hB
      · rcases List.mem_map.mp hA with ⟨m, hm, heq⟩
        subst heq
        exact ⟨hcond.2, Or.inl ⟨m, hm, rfl, decide_eq_true_eq.mp hcond.1⟩⟩
      · rcases List.mem_map.mp hB with ⟨m, hm, heq⟩
        subst heq
        exact ⟨hcond.2, Or.inr (Or.inl ⟨m, hm, rfl, decide_eq_true_eq.mp hcond.1⟩)⟩
    · rcases List.mem_map.mp hC with ⟨m, hm, heq⟩
      subst heq
      exact ⟨hcond.2, Or.inr (Or.inr ⟨m, hm, rfl, decide_eq_true_eq.mp hcond.1⟩)⟩
  · rintro ⟨hnot, (⟨m, hm, rfl, hle⟩ | ⟨m, hm, rfl, hle⟩ | ⟨m, hm, rfl, hle⟩)⟩
    · refine List.mem_map.mpr ⟨(daysKey m, decide ((m : Int) ≤ st.days)), ?_, rfl⟩
      refine List.mem_filter.mpr ⟨?_, ?_⟩
      · exact List.mem_append.mpr (Or.inl (List.mem_append.mpr
          (Or.inl (List.mem_map.mpr ⟨m, hm, rfl⟩))))
      · rw [Bool.and_eq_true, decide_eq_true_eq]
        exact ⟨hle, decide_eq_true hnot⟩
    · refine List.mem_map.mpr ⟨(streakKey m, decide ((m : Int) ≤ st.streak)), ?_, rfl⟩
      refine List.mem_filter.mpr ⟨?_, ?_⟩
      · exact List.mem_append.mpr (Or.inl (List.mem_append.mpr
          (Or.inr (List.mem_map.mpr ⟨m, hm, rfl⟩))))
      · rw [Bool.and_eq_true, decide_eq_true_eq]
        exact ⟨hle, decide_eq_true hnot⟩
    · refine List.mem_map.mpr ⟨(savingsKey m, decide ((m : Rat) ≤ st.savings)), ?_, rfl⟩
      refine List.mem_filter.mpr ⟨?_, ?_⟩
      · exact List.mem_append.mpr (Or.inr (List.mem_map.mpr ⟨m, hm, rfl⟩))
      · rw [Bool.and_eq_true, decide_eq_true_eq]
        exact ⟨hle, decide_eq_true hnot⟩

/-! ### Claims -/

/-- C5: with quit date day 0 and check-ins `{day0:0, day1:0, day2:5, day3:0}`
evaluated at today = day 3, the snapshot has `current_streak = 1` (the
backward walk stops at day 2's nonzero count) while `smoke_free_days = 3`
(days 0, 1, 3 each have a zero-count check-in), so the two metrics differ. -/
theorem C5_streak_vs_smoke_free :
    (computeStats 3 profileStreak checkinsStreak).current_streak = 1 ∧
    (computeStats 3 profileStreak checkinsStreak).smoke_free_days = 3 ∧
    (computeStats 3 profileStreak checkinsStreak).current_streak ≠
      (computeStats 3 profileStreak checkinsStreak).smoke_free_days := by
  refine ⟨by decide, by decide, by decide⟩

/-- C6: badge awarding is idempotent — a second run whose existing-keys set
includes the keys created by the first run creates zero new badges, and a key
already present for the user is never awarded again. -/
theorem C6_award_idempotent (st : AwardStats) (ex : List String) :
    newBadgeKeys st (newBadgeKeys st ex ++ ex) = [] ∧
    ∀ k ∈ ex, k ∉ newBadgeKeys st ex := by
  constructor
  · apply List.eq_nil_iff_forall_not_mem.mpr
    intro k hk
    rw [mem_newBadgeKeys] at hk
    obtain ⟨hnot, hthr⟩ := hk
    apply hnot
    apply List.mem_append.mpr
    by_cases hex : k ∈ ex
    · exact Or.inr hex
    · exact Or.inl ((mem_newBadgeKeys st ex k).mpr ⟨hex, hthr⟩)
  · intro k hkex hknew
    exact ((mem_newBadgeKeys st ex k).mp hknew).1 hkex

/-- Witness for C6 at a concrete stats snapshot and existing-key set. -/
theorem C6_award_idempotent_witness :
    newBadgeKeys ⟨2, 3, 30⟩ (newBadgeKeys ⟨2, 3, 30⟩ ["days_1"] ++ ["days_1"]) = [] ∧
    "days_1" ∉ newBadgeKeys ⟨2, 3, 30⟩ ["days_1"] :=
  ⟨(C6_award_idempotent ⟨2, 3, 30⟩ ["days_1"]).1,
    (C6_award_idempotent ⟨2, 3, 30⟩ ["days_1"]).2 "days_1" (by decide)⟩

/-- C7: badge awarding is monotone — if every metric of `s2` dominates the
corresponding metric of `s1`, every badge key awarded for `s1` from a given
existing-key set is also awarded for `s2`. -/
theorem C7_award_monotone (s1 s2 : AwardStats) (ex : List String)
    (hd : s1.days ≤ s2.days) (hs : s1.streak ≤ s2.streak)
    (hv : s1.savings ≤ s2.savings) :
    ∀ k, k ∈ newBadgeKeys s1 ex → k ∈ newBadgeKeys s2 ex := by
  intro k hk
  rw [mem_newBadgeKeys] at hk ⊢
  obtain ⟨hnot, hthr⟩ := hk
  refine ⟨hnot, ?_⟩
  rcases hthr with ⟨m, hm, rfl, hle⟩ | ⟨m, hm, rfl, hle⟩ | ⟨m, hm, rfl, hle⟩
  · exact Or.inl ⟨m, hm, rfl, le_trans hle hd⟩
  · exact Or.inr (Or.inl ⟨m, hm, rfl, le_trans hle hs⟩)
  · exact Or.inr (Or.inr ⟨m, hm, rfl, le_trans hle hv⟩)

/-- Witness for C7 at concrete dominating stats. -/
theorem C7_award_monotone_witness :
    "days_1" ∈ newBadgeKeys ⟨2, 0, 0⟩ [] :=
  C7_award_monotone ⟨1, 0, 0⟩ ⟨2, 0, 0⟩ [] (by norm_num) (by norm_num) (by norm_num)
    "days_1" (by decide)

/-- C8: an awarding run grants exactly the badges whose key is not already
present and whose threshold is met — `days_m` for `m ∈ [1,3,7,14,30,60,90]`
with `days_since_quit ≥ m`, `streak_m` for `m ∈ [3,7,14,30,60]` with
`current_streak ≥ m`, `savings_m` for `m ∈ [10,50,100,250,500]` with
`savings.amount ≥ m` — and nothing else. -/
theorem C8_award_characterization (st : AwardStats) (ex : List String) (k : String) :
    k ∈ newBadgeKeys st ex ↔
      k ∉ ex ∧
        ((∃ m ∈ days_milestones, k = daysKey m ∧ (m : Int) ≤ st.days)
          ∨ (∃ m ∈ streak_milestones, k = streakKey m ∧ (m : Int) ≤ st.streak)
          ∨ (∃ m ∈ savings_milestones, k = savingsKey m ∧ (m : Rat) ≤ st.savings)) :=
  mem_newBadgeKeys st ex k

/-- C10: a profile update whose body sets no fields returns
`{"updated": false}` for every store state and user id — no store write and
no 404, even for a nonexistent user. -/
theorem C10_empty_update_no_write (now : DocVal) (store : List Doc) (uid : String) :
    update_user now store uid [] = (store, UpdateResp.updated false) ∧
    (update_user now store uid []).2 ≠ UpdateResp.httpError 404 := by
  refine ⟨by simp [update_user], ?_⟩
  simp [update_user]

/-- C4: the spec's concrete scenario — quit day 0 (2024-01-01), check-ins 0 on
days 0..2, evaluated at today = day 2 (2024-01-03): `days_since_quit = 2`,
`current_streak = 3`, `smoke_free_days = 3`, `savings.amount = 30` via
`cost_per_cig = 1/2`, `total_days = 3`, `cigs_avoided = 60`; from no existing
badges the run grants exactly `days_1`, `streak_3`, `savings_10`, and grants
neither `days_3` nor `savings_50`. -/
theorem C4_concrete_scenario :
    (computeStats 2 profileScenario checkinsScenario).days_since_quit = 2 ∧
    (computeStats 2 profileScenario checkinsScenario).current_streak = 3 ∧
    (computeStats 2 profileScenario checkinsScenario).smoke_free_days = 3 ∧
    (computeStats 2 profileScenario checkinsScenario).savings.amount = 30 ∧
    cost_per_cig profileScenario = 1/2 ∧
    total_days 2 profileScenario = 3 ∧
    cigs_avoided 2 profileScenario checkinsScenario = 60 ∧
    newBadgeKeys (statsOfSnapshot (computeStats 2 profileScenario checkinsScenario)) []
      = ["days_1", "streak_3", "savings_10"] ∧
    "days_3" ∉ newBadgeKeys (statsOfSnapshot (computeStats 2 profileScenario checkinsScenario)) [] ∧
    "savings_50" ∉ newBadgeKeys (statsOfSnapshot (computeStats 2 profileScenario checkinsScenario)) [] := by
  have hd : (computeStats 2 profileScenario checkinsScenario).days_since_quit = 2 := by decide
  have hstk : (computeStats 2 profileScenario checkinsScenario).current_streak = 3 := by decide
  have hsfd : (computeStats 2 profileScenario checkinsScenario).smoke_free_days = 3 := by decide
  have hcost : cost_per_cig profileScenario = 1/2 := by
    simp [cost_per_cig, effCigsPerPack, profileScenario]
    norm_num
  have hav : cigs_avoided 2 profileScenario checkinsScenario = 60 := by decide
  have hsav : (computeStats 2 profileScenario checkinsScenario).savings.amount = 30 := by
    show round2 (((cigs_avoided 2 profileScenario checkinsScenario : Int) : Rat)
      * cost_per_cig profileScenario) = 30
    rw [hav, hcost]
    rw [show (((60 : Int) : Rat)) * (1/2) = ((30 : Int) : Rat) by norm_num, round2_intCast]
    norm_num
  have hstats : statsOfSnapshot (computeStats 2 profileScenario checkinsScenario)
      = ⟨2, 3, 30⟩ := by
    simp [statsOfSnapshot, hd, hstk, hsfd, hsav]
  refine ⟨hd, hstk, hsfd, hsav, hcost, by decide, hav, ?_, ?_, ?_⟩
  · rw [hstats]; decide
  · rw [hstats]; decide
  · rw [hstats]; decide

/-- C1 counterexample: the profile with no quit date, baseline 20, pack price
10 and 20 cigarettes per pack does NOT produce an all-zero snapshot — its
`savings.amount` is `round(20 × 0.5, 2) = 10`, not 0. -/
theorem C1_no_quit_counterexample :
    ¬ ((computeStats 0 profileNoQuit []).days_since_quit = 0 ∧
       (computeStats 0 profileNoQuit []).current_streak = 0 ∧
       (computeStats 0 profileNoQuit []).smoke_free_days = 0 ∧
       (computeStats 0 profileNoQuit []).savings.amount = 0) := by
  have hcost : cost_per_cig profileNoQuit = 1/2 := by
    simp [cost_per_cig, effCigsPerPack, profileNoQuit]
    norm_num
  have hav : cigs_avoided 0 profileNoQuit [] = 20 := by decide
  have hsav : (computeStats 0 profileNoQuit []).savings.amount = 10 := by
    show round2 (((cigs_avoided 0 profileNoQuit [] : Int) : Rat)
      * cost_per_cig profileNoQuit) = 10
    rw [hav, hcost]
    rw [show (((20 : Int) : Rat)) * (1/2) = ((10 : Int) : Rat) by norm_num, round2_intCast]
    norm_num
  rintro ⟨-, -, -, h0⟩
  rw [hsav] at h0
  norm_num at h0

/-- C1 amended: a profile with no quit date yields `days_since_quit = 0`,
`current_streak = 0`, `smoke_free_days = 0`, but `savings.amount` is
`round(max(daily_cig_before, 0) × cost_per_cig, 2)` — one day of baseline
consumption counted as avoided (`total_days = 1`) — which is 0 only when the
baseline or the cost is 0. -/
theorem C1_no_quit_amended (today : Int) (p : Userprofile) (cs : List Checkin)
    (h : p.quit_date = none) :
    (computeStats today p cs).days_since_quit = 0 ∧
    (computeStats today p cs).current_streak = 0 ∧
    (computeStats today p cs).smoke_free_days = 0 ∧
    (computeStats today p cs).savings.amount
      = round2 (((max p.daily_cig_before 0 : Int) : Rat) * cost_per_cig p) := by
  have hraw : raw_days today p = 0 := by simp [raw_days, h]
  have hlog : days_logged p cs = [] := by
    simp [days_logged, fetched_checkins, h, daysLoggedOf]
  refine ⟨?_, ?_, ?_, ?_⟩
  · show max (raw_days today p) 0 = 0
    rw [hraw]
    exact max_self 0
  · show (current_streak_fn today p cs : Int) = 0
    simp [current_streak_fn, h]
  · show (smoke_free_days_fn today p cs : Int) = 0
    simp [smoke_free_days_fn, hraw, lookup_day, hlog, h]
  · show round2 (((cigs_avoided today p cs : Int) : Rat) * cost_per_cig p)
      = round2 (((max p.daily_cig_before 0 : Int) : Rat) * cost_per_cig p)
    have : cigs_avoided today p cs = max p.daily_cig_before 0 := by
      simp [cigs_avoided, total_days, hraw, total_cigs_logged, hlog]
    rw [this]

/-- Witness for C1 amended at the concrete no-quit-date profile. -/
theorem C1_no_quit_amended_witness :
    (computeStats 0 profileNoQuit []).days_since_quit = 0 ∧
    (computeStats 0 profileNoQuit []).current_streak = 0 ∧
    (computeStats 0 profileNoQuit []).smoke_free_days = 0 ∧
    (computeStats 0 profileNoQuit []).savings.amount
      = round2 (((max (profileNoQuit.daily_cig_before) 0 : Int) : Rat)
          * cost_per_cig profileNoQuit) :=
  C1_no_quit_amended 0 profileNoQuit [] (by rfl)

/-- C2 (code bug evidence): with quit_date one day after today, the code
clamps the returned `days_since_quit` to 0 but computes `progress` from the
unclamped delta, returning `-10/9 < 0` — contradicting the spec's
`progress = min(days_since_quit / 90 × 100, 100)` over the clamped value,
which would give 0. -/
theorem C2_progress_negative_on_future_quit :
    (computeStats 0 profileFutureQuit []).days_since_quit = 0 ∧
    (computeStats 0 profileFutureQuit []).progress = -10/9 ∧
    (computeStats 0 profileFutureQuit []).progress < 0 := by
  have h90 : milestonesMax = 90 := by decide
  have hne : milestonesList ≠ [] := by decide
  have hraw : raw_days 0 profileFutureQuit = -1 := by decide
  have hprog : (computeStats 0 profileFutureQuit []).progress = -10/9 := by
    show progress_fn 0 profileFutureQuit = -10/9
    unfold progress_fn
    rw [if_pos hne, hraw, h90, min_eq_left (by norm_num)]
    norm_num
  exact ⟨by decide, hprog, by rw [hprog]; norm_num⟩

/-- C3 counterexample: for the stored value `cigs_per_pack = 0` (price 10,
baseline 20) the code does NOT treat `cost_per_cig` as 0 — the `or 20`
coercion substitutes the default pack size, so `cost_per_cig = 1/2` and
`expected_daily_spend` and `savings.amount` are nonzero. -/
theorem C3_zero_pack_counterexample :
    ¬ (cost_per_cig profileZeroPack = 0 ∧
       (computeStats 0 profileZeroPack []).expected_daily_spend = 0 ∧
       (computeStats 0 profileZeroPack []).savings.amount = 0) := by
  have hcost : cost_per_cig profileZeroPack = 1/2 := by
    simp [cost_per_cig, effCigsPerPack, profileZeroPack]
    norm_num
  rintro ⟨h0, -, -⟩
  rw [hcost] at h0
  norm_num at h0

/-- C3 amended: a stored `cigs_per_pack = 0` falls back to the default 20, so
`cost_per_cig = price_per_pack / 20`; the effective divisor is never zero, so
no division by zero occurs; and for `cigs_per_pack ≥ 1`,
`cost_per_cig = price_per_pack / cigs_per_pack` as the claim states. -/
theorem C3_zero_pack_amended (p : Userprofile) :
    effCigsPerPack p ≠ 0 ∧
    (p.cigs_per_pack = 0 → cost_per_cig p = p.price_per_pack / 20) ∧
    (1 ≤ p.cigs_per_pack →
      cost_per_cig p = p.price_per_pack / ((p.cigs_per_pack : Int) : Rat)) := by
  refine ⟨?_, ?_, ?_⟩
  · unfold effCigsPerPack
    split
    · norm_num
    · assumption
  · intro h0
    have he : effCigsPerPack p = 20 := by simp [effCigsPerPack, h0]
    simp [cost_per_cig, he]
  · intro h1
    have hne : p.cigs_per_pack ≠ 0 := by omega
    have he : effCigsPerPack p = p.cigs_per_pack := by simp [effCigsPerPack, hne]
    simp [cost_per_cig, he, hne]

/-- Witness for C3 amended: the zero-pack profile gets cost 10/20, and a
pack-of-20 profile gets price divided by its own pack size. -/
theorem C3_zero_pack_amended_witness :
    cost_per_cig profileZeroPack = profileZeroPack.price_per_pack / 20 ∧
    cost_per_cig profileScenario
      = profileScenario.price_per_pack / ((profileScenario.cigs_per_pack : Int) : Rat) :=
  ⟨(C3_zero_pack_amended profileZeroPack).2.1 (by decide),
    (C3_zero_pack_amended profileScenario).2.2 (by decide)⟩

/-- C9: `cigs_avoided` is the clamped
`max(baseline_daily × total_days − total_cigs_logged, 0)`, and the resulting
`savings.amount` is never negative — even when the logged counts exceed the
baseline expectation — for any profile with nonnegative price and pack size
(the schema enforces `price_per_pack ≥ 0` and `cigs_per_pack ≥ 1`). -/
theorem C9_savings_floor (today : Int) (p : Userprofile) (cs : List Checkin)
    (hpr : 0 ≤ p.price_per_pack) (hcp : 0 ≤ p.cigs_per_pack) :
    cigs_avoided today p cs
        = max (p.daily_cig_before * total_days today p - total_cigs_logged p cs) 0 ∧
    (computeStats today p cs).savings.amount
        = round2 (((cigs_avoided today p cs : Int) : Rat) * cost_per_cig p) ∧
    0 ≤ (computeStats today p cs).savings.amount := by
  refine ⟨rfl, rfl, ?_⟩
  show 0 ≤ round2 (((cigs_avoided today p cs : Int) : Rat) * cost_per_cig p)
  apply round2_nonneg
  apply mul_nonneg
  · exact_mod_cast cigs_avoided_nonneg today p cs
  · exact cost_per_cig_nonneg p hpr hcp

/-- Witness for C9 at a profile whose logged counts (100) exceed the baseline
expectation (1 per day): savings clamps at 0 and stays nonnegative. -/
theorem C9_savings_floor_witness :
    cigs_avoided 0 profileOverLogged checkinsOverLogged
        = max (profileOverLogged.daily_cig_before * total_days 0 profileOverLogged
            - total_cigs_logged profileOverLogged checkinsOverLogged) 0 ∧
    (computeStats 0 profileOverLogged checkinsOverLogged).savings.amount
        = round2 (((cigs_avoided 0 profileOverLogged checkinsOverLogged : Int) : Rat)
            * cost_per_cig profileOverLogged) ∧
    0 ≤ (computeStats 0 profileOverLogged checkinsOverLogged).savings.amount :=
  C9_savings_floor 0 profileOverLogged checkinsOverLogged (by decide) (by decide)

end QuitSmoking
